import Mathlib

/-!
Shallow embedding of `pkg/infra/httpclient/httpclientprovider/http_client_provider.go`
(Grafana's HTTP client provider): the middleware list built by `New`, the
`ConfigureTransport` hook, `newConntrackRoundTripper`, `httpLoggerMiddleware`
and `setDefaultTimeoutOptions`, together with spec-modelled definitions for the
external collaborators (`metricutil.SanitizeLabelName`, the conntrack dialer
wrapper, the SDK HTTP logger and provider constructor) whose sources are not
part of this package.
-/

set_option autoImplicit false

namespace HttpClientProvider

/-- One nanosecond-denominated second, mirroring Go `time.Second`. -/
def second : Int := 1000000000

/-- The fields of `setting.Cfg` read by this file (Go struct, numeric fields are
seconds or connection counts). -/
structure Cfg where
  BuildVersion : String
  ResponseLimit : Int
  SigV4AuthEnabled : Bool
  SigV4VerboseLogging : Bool
  DataProxyTimeout : Int
  DataProxyDialTimeout : Int
  DataProxyKeepAlive : Int
  DataProxyTLSHandshakeTimeout : Int
  DataProxyExpectContinueTimeout : Int
  DataProxyMaxConnsPerHost : Int
  DataProxyMaxIdleConns : Int
  DataProxyIdleConnTimeout : Int
  deriving DecidableEq, Repr

/-- `sdkhttpclient.TimeoutOptions`: the global default timeout policy structure.
Duration fields are nanoseconds (Go `time.Duration`). -/
structure TimeoutOptions where
  Timeout : Int
  DialTimeout : Int
  KeepAlive : Int
  TLSHandshakeTimeout : Int
  ExpectContinueTimeout : Int
  MaxConnsPerHost : Int
  MaxIdleConns : Int
  MaxIdleConnsPerHost : Int
  IdleConnTimeout : Int
  deriving DecidableEq, Repr

/-- `setDefaultTimeoutOptions` from the source: the value written into the SDK
global `sdkhttpclient.DefaultTimeoutOptions`, computed from `cfg`.
`time.Duration(x) * time.Second` becomes `x * second`. -/
def setDefaultTimeoutOptions (cfg : Cfg) : TimeoutOptions :=
  { Timeout := cfg.DataProxyTimeout * second
    DialTimeout := cfg.DataProxyDialTimeout * second
    KeepAlive := cfg.DataProxyKeepAlive * second
    TLSHandshakeTimeout := cfg.DataProxyTLSHandshakeTimeout * second
    ExpectContinueTimeout := cfg.DataProxyExpectContinueTimeout * second
    MaxConnsPerHost := cfg.DataProxyMaxConnsPerHost
    MaxIdleConns := cfg.DataProxyMaxIdleConns
    MaxIdleConnsPerHost := cfg.DataProxyMaxIdleConns
    IdleConnTimeout := cfg.DataProxyIdleConnTimeout * second }

/-- Go map lookup `labels[key]` over an association-list model of the
string-to-string label map: first matching key wins, `none` models
`exists = false`. -/
def lookupLabel : List (String × String) → String → Option String
  | [], _ => none
  | (k, v) :: rest, key => if k = key then some v else lookupLabel rest key

/-- The fields of `sdkhttpclient.Options` consulted by this file: the label
map. -/
structure Options where
  Labels : List (String × String)
  deriving DecidableEq, Repr

/-- A dial function value (Go `func(context.Context, string, string) (net.Conn, error)`
stored in `http.Transport.DialContext`).  `defaultDialer` is the stock
`net.Dialer`; `base` stands for an arbitrary pre-existing dial function;
`conntrack` is the wrapper produced by `conntrack.NewDialContextFunc`. -/
inductive DialFn where
  | defaultDialer : DialFn
  | base (id : Nat) : DialFn
  | conntrack (name : String) (parent : DialFn) : DialFn
  deriving DecidableEq, Repr

/-- Modelled from the spec: `conntrack.NewDialContextFunc(DialWithName(name),
DialWithDialContextFunc(parent))` — the library is not part of this package.
Per the Connection Tagger contract it wraps the parent dial function,
registering every connection under `name`; when the parent dial function is
nil it falls back to a default dialer. -/
def conntrackNewDialContextFunc (name : String) (parent : Option DialFn) : DialFn :=
  .conntrack name (parent.getD .defaultDialer)

/-- What a dial function does when invoked: which concrete dialer performs the
network dial, and under which names the connection is registered.  Modelled
from the spec: a conntrack wrapper performs the identical network dial as its
parent and additionally registers the connection under its name. -/
structure DialBehavior where
  performer : DialFn
  tags : List String
  deriving DecidableEq, Repr

/-- Evaluate a dial function into its observable behavior. -/
def dialBehavior : DialFn → DialBehavior
  | .defaultDialer => ⟨.defaultDialer, []⟩
  | .base id => ⟨.base id, []⟩
  | .conntrack name parent =>
      let b := dialBehavior parent
      ⟨b.performer, name :: b.tags⟩

/-- The fields of `http.Transport` relevant to this file.  `DialContext = none`
models a nil dial function; the remaining fields are the other transport knobs
(TLS configuration, proxy settings, timeouts, pool sizes), kept opaque where
their internals do not matter. -/
structure Transport where
  DialContext : Option DialFn
  Proxy : Nat
  TLSClientConfig : Nat
  TLSHandshakeTimeout : Int
  DisableKeepAlives : Bool
  MaxIdleConns : Int
  MaxIdleConnsPerHost : Int
  MaxConnsPerHost : Int
  IdleConnTimeout : Int
  ExpectContinueTimeout : Int
  ResponseHeaderTimeout : Int
  deriving DecidableEq, Repr

/-- `newConntrackRoundTripper` from the source: replaces `transport.DialContext`
with the conntrack wrapper around the previous dial function and returns the
transport.  Go mutates the pointed-to struct in place; here the updated record
is returned. -/
def newConntrackRoundTripper (name : String) (transport : Transport) : Transport :=
  { transport with
      DialContext := some (conntrackNewDialContextFunc name transport.DialContext) }

/-- A character kept verbatim by label sanitization: ASCII letters, digits and
underscore. -/
def isLabelChar (c : Char) : Bool :=
  (('a' ≤ c && c ≤ 'z') || ('A' ≤ c && c ≤ 'Z') || ('0' ≤ c && c ≤ '9') || c = '_')

/-- Per-character sanitization step: label-safe characters are kept, a space is
replaced by an underscore, every other character is removed. -/
def sanitizeChar : Char → Option Char
  | c => if isLabelChar c then some c else if c = ' ' then some '_' else none

/-- Sanitize a character list: keep label-safe characters, replace spaces with
underscores, drop the rest. -/
def sanitizeChars : List Char → List Char
  | [] => []
  | c :: cs =>
      match sanitizeChar c with
      | some d => d :: sanitizeChars cs
      | none => sanitizeChars cs

/-- Modelled from the spec: `metricutil.SanitizeLabelName` — its source is not
part of this package.  Per the spec it normalizes an arbitrary string into a
value safe for use as a metrics label (non-alphanumeric characters replaced or
removed, e.g. sanitizing "My DB!" yields a label derived from it), and it can
fail; failure is modelled as the case where no valid (non-empty) label can be
produced. -/
def SanitizeLabelName (name : String) : Except String String :=
  if (sanitizeChars name.toList).isEmpty then .error "invalid label name"
  else .ok (String.mk (sanitizeChars name.toList))

/-- An `http.RoundTripper` chain as observed by the logging middleware: either
some arbitrary next transport, or the SDK HAR logger wrapping a next
transport.  `enabled` is the (constant) result of the logger's enabled-check;
`path = none` means the implementation-defined default output location. -/
inductive RoundTripper where
  | base (id : Nat) : RoundTripper
  | logger (dsName : String) (enabled : Bool) (path : Option String)
      (next : RoundTripper) : RoundTripper
  deriving DecidableEq, Repr

/-- Modelled from the spec: the SDK `httplogger.HTTPLogger` value built by
`httplogger.NewHTTPLogger` and its `WithEnabledCheck` / `WithPath` builder
methods — the SDK source is not part of this package.  The logger's default
output is the standard location (`path = none`) and its default enabled-check
is default-off (it is overridden before use in this file). -/
structure HTTPLogger where
  dsName : String
  enabled : Bool
  path : Option String
  next : RoundTripper
  deriving DecidableEq, Repr

/-- Modelled from the spec: `httplogger.NewHTTPLogger(name, next)`. -/
def newHTTPLogger (name : String) (next : RoundTripper) : HTTPLogger :=
  ⟨name, false, none, next⟩

/-- Modelled from the spec: `WithEnabledCheck` replaces the logger's
enabled-check; the source only ever installs a constant check, so the check is
carried as its constant value. -/
def HTTPLogger.withEnabledCheck (hl : HTTPLogger) (b : Bool) : HTTPLogger :=
  { hl with enabled := b }

/-- Modelled from the spec: `WithPath` redirects the logger's output to the
given path. -/
def HTTPLogger.withPath (hl : HTTPLogger) (p : String) : HTTPLogger :=
  { hl with path := some p }

/-- The logger viewed as the round tripper it is returned as. -/
def HTTPLogger.toRoundTripper (hl : HTTPLogger) : RoundTripper :=
  .logger hl.dsName hl.enabled hl.path hl.next

/-- The function wrapped by `httpclient.NamedMiddlewareFunc("http-logger", ...)`
in `httpLoggerMiddleware`, translated clause by clause from the source. -/
def httpLoggerTransform (opts : Options) (next : RoundTripper) : RoundTripper :=
  match lookupLabel opts.Labels "datasource_name" with
  | none => next
  | some datasourceName =>
    match lookupLabel opts.Labels "har_log_enabled" with
    | none => next
    | some harLogEnabled =>
      if harLogEnabled ≠ "true" then next
      else
        let hl := (newHTTPLogger datasourceName next).withEnabledCheck true
        let hl :=
          match lookupLabel opts.Labels "har_log_path" with
          | some harLogPath => hl.withPath harLogPath
          | none => hl
        hl.toRoundTripper

/-- `sdkhttpclient.Middleware`: a named transport decorator. -/
structure Middleware where
  name : String
  transform : Options → RoundTripper → RoundTripper

/-- Modelled from the spec: `httpclient.NamedMiddlewareFunc`. -/
def namedMiddlewareFunc (name : String)
    (f : Options → RoundTripper → RoundTripper) : Middleware :=
  ⟨name, f⟩

/-- `httpLoggerMiddleware` from the source. -/
def httpLoggerMiddleware : Middleware :=
  namedMiddlewareFunc "http-logger" httpLoggerTransform

/-- Opaque tracer handle (`tracing.Tracer`). -/
structure Tracer where
  id : Nat
  deriving DecidableEq, Repr

/-- Opaque logger handle (`log.New("httpclient")`). -/
structure Logger where
  name : String
  deriving DecidableEq, Repr

/-- Modelled from the spec: `TracingMiddleware` — interceptor internals are out
of scope, only its name and position in the chain matter here. -/
def TracingMiddleware (_logger : Logger) (_tracer : Tracer) : Middleware :=
  ⟨"tracing", fun _ next => next⟩

/-- Modelled from the spec: `DataSourceMetricsMiddleware` — internals out of
scope. -/
def DataSourceMetricsMiddleware : Middleware :=
  ⟨"datasource-metrics", fun _ next => next⟩

/-- Modelled from the spec: `SetUserAgentMiddleware` — stamps the precomputed
user-agent string; internals out of scope. -/
def SetUserAgentMiddleware (_userAgent : String) : Middleware :=
  ⟨"user-agent", fun _ next => next⟩

/-- Modelled from the spec: `sdkhttpclient.BasicAuthenticationMiddleware` —
internals out of scope. -/
def BasicAuthenticationMiddleware : Middleware :=
  ⟨"basic-auth", fun _ next => next⟩

/-- Modelled from the spec: `sdkhttpclient.CustomHeadersMiddleware` — internals
out of scope. -/
def CustomHeadersMiddleware : Middleware :=
  ⟨"custom-headers", fun _ next => next⟩

/-- Modelled from the spec: `ResponseLimitMiddleware` — internals out of
scope. -/
def ResponseLimitMiddleware (_limit : Int) : Middleware :=
  ⟨"response-limit", fun _ next => next⟩

/-- Modelled from the spec: `SigV4Middleware` — the request-signing
interceptor; internals out of scope. -/
def SigV4Middleware (_verboseLogging : Bool) : Middleware :=
  ⟨"sigv4", fun _ next => next⟩

/-- The `ConfigureTransport` closure passed by `New` to the provider options,
translated clause by clause from the source.  Go mutates the transport through
a pointer; here the (possibly) updated transport is returned.  The closure
returns no error: a sanitization failure makes it return with the transport
untouched. -/
def configureTransportHook (opts : Options) (transport : Transport) : Transport :=
  match lookupLabel opts.Labels "datasource_name" with
  | none => transport
  | some datasourceName =>
    match SanitizeLabelName datasourceName with
    | .error _ => transport
    | .ok datasourceLabelName => newConntrackRoundTripper datasourceLabelName transport

/-- `sdkhttpclient.ProviderOptions`. -/
structure ProviderOptions where
  Middlewares : List Middleware
  ConfigureTransport : Options → Transport → Transport

/-- `sdkhttpclient.Provider` as far as this file observes it. -/
structure Provider where
  middlewares : List Middleware
  configureTransport : Options → Transport → Transport

/-- Modelled from the spec: `sdkhttpclient.NewProvider` (the value of the
package variable `newProviderFunc`) — the SDK source is not part of this
package; it packages the given middlewares and transport hook into a client
factory. -/
def newProviderFunc (opts : ProviderOptions) : Provider :=
  ⟨opts.Middlewares, opts.ConfigureTransport⟩

/-- The observable side effects of `New`, in program order: the write to the
global `sdkhttpclient.DefaultTimeoutOptions` (with the value written), and the
invocation of `newProviderFunc` (with the global default timeout policy in
force at that moment and the middleware names passed). -/
inductive Event where
  | setGlobalDefaults (newValue : TimeoutOptions) : Event
  | callNewProviderFunc (globalAtCall : TimeoutOptions)
      (middlewareNames : List String) : Event
  deriving DecidableEq, Repr

/-- Whether an event is the write to the global default timeout policy. -/
def Event.isSetGlobalDefaults : Event → Bool
  | .setGlobalDefaults _ => true
  | .callNewProviderFunc _ _ => false

/-- The result of running `New`: the provider it returns, the global default
timeout policy after it ran, and its side effects in program order. -/
structure NewResult where
  provider : Provider
  globalDefaults : TimeoutOptions
  events : List Event

/-- The value held by the local variable `middlewares` in `New` right before
`newProviderFunc` is called: the fixed ordered list, with the SigV4 middleware
appended when enabled by policy. -/
def newMiddlewares (cfg : Cfg) (tracer : Tracer) : List Middleware :=
  let logger : Logger := ⟨"httpclient"⟩
  let userAgent := "Grafana/" ++ cfg.BuildVersion
  let middlewares : List Middleware :=
    [TracingMiddleware logger tracer,
     DataSourceMetricsMiddleware,
     httpLoggerMiddleware,
     SetUserAgentMiddleware userAgent,
     BasicAuthenticationMiddleware,
     CustomHeadersMiddleware,
     ResponseLimitMiddleware cfg.ResponseLimit]
  if cfg.SigV4AuthEnabled then
    middlewares ++ [SigV4Middleware cfg.SigV4VerboseLogging]
  else middlewares

/-- `New` from the source, in state-passing style: `priorDefaults` is the
global `sdkhttpclient.DefaultTimeoutOptions` before the call. -/
def New (cfg : Cfg) (tracer : Tracer) (_priorDefaults : TimeoutOptions) : NewResult :=
  let middlewares := newMiddlewares cfg tracer
  let newDefaults := setDefaultTimeoutOptions cfg
  let provider := newProviderFunc ⟨middlewares, configureTransportHook⟩
  { provider := provider
    globalDefaults := newDefaults
    events :=
      [.setGlobalDefaults newDefaults,
       .callNewProviderFunc newDefaults (middlewares.map Middleware.name)] }

/-- Modelled from the spec: the transport parameters a transport built by the
SDK observes — every subsequently built transport consumes the global default
timeout policy structure in force when it is built. -/
structure BuiltTransport where
  requestTimeout : Int
  dialTimeout : Int
  keepAlive : Int
  tlsHandshakeTimeout : Int
  expectContinueTimeout : Int
  idleConnTimeout : Int
  maxConnsPerHost : Int
  maxIdleConns : Int
  maxIdleConnsPerHost : Int
  deriving DecidableEq, Repr

/-- Modelled from the spec: building a transport under a given global default
timeout policy. -/
def buildTransport (g : TimeoutOptions) : BuiltTransport :=
  { requestTimeout := g.Timeout
    dialTimeout := g.DialTimeout
    keepAlive := g.KeepAlive
    tlsHandshakeTimeout := g.TLSHandshakeTimeout
    expectContinueTimeout := g.ExpectContinueTimeout
    idleConnTimeout := g.IdleConnTimeout
    maxConnsPerHost := g.MaxConnsPerHost
    maxIdleConns := g.MaxIdleConns
    maxIdleConnsPerHost := g.MaxIdleConnsPerHost }

/-- Nesting depth of a round-tripper chain, used to show that a wrapper is
never equal to the transport it wraps. -/
def RoundTripper.depth : RoundTripper → Nat
  | .base _ => 0
  | .logger _ _ _ next => next.depth + 1

theorem logger_ne_next (d : String) (e : Bool) (p : Option String)
    (n : RoundTripper) : RoundTripper.logger d e p n ≠ n := by
  intro h
  have hd := congrArg RoundTripper.depth h
  simp [RoundTripper.depth] at hd

theorem sanitizeChar_fix {c d : Char} (h : sanitizeChar c = some d) :
    sanitizeChar d = some d := by
  by_cases hc : isLabelChar c
  · have hd : c = d := by simpa [sanitizeChar, hc] using h
    subst hd
    simp [sanitizeChar, hc]
  · by_cases hs : c = ' '
    · subst hs
      rw [show sanitizeChar ' ' = some '_' from rfl] at h
      obtain rfl := Option.some.inj h
      decide
    · simp [sanitizeChar, hc, hs] at h

theorem sanitizeChars_cons (c : Char) (cs : List Char) :
    sanitizeChars (c :: cs) =
      match sanitizeChar c with
      | some d => d :: sanitizeChars cs
      | none => sanitizeChars cs := rfl

theorem sanitizeChars_idem (l : List Char) :
    sanitizeChars (sanitizeChars l) = sanitizeChars l := by
  induction l with
  | nil => rfl
  | cons c cs ih =>
    rw [sanitizeChars_cons]
    cases hc : sanitizeChar c with
    | none => exact ih
    | some d =>
      show sanitizeChars (d :: sanitizeChars cs) = d :: sanitizeChars cs
      rw [sanitizeChars_cons, sanitizeChar_fix hc]
      show d :: sanitizeChars (sanitizeChars cs) = d :: sanitizeChars cs
      rw [ih]

/-- C1: `New` constructs the middleware list in the fixed order tracing,
datasource metrics, http-logger, user-agent, basic-auth, custom-headers,
response-size-limit, with the SigV4 request-signing middleware appended as the
last element exactly when `cfg.SigV4AuthEnabled` is true; building twice from
the same inputs yields the same middleware-name sequence. -/
theorem New_middleware_order (cfg : Cfg) (tracer : Tracer) (g0 : TimeoutOptions) :
    ((New cfg tracer g0).provider.middlewares.map Middleware.name =
      ["tracing", "datasource-metrics", "http-logger", "user-agent",
        "basic-auth", "custom-headers", "response-limit"] ++
        (if cfg.SigV4AuthEnabled then ["sigv4"] else [])) ∧
    (New cfg tracer g0).provider.middlewares.map Middleware.name =
      (New cfg tracer g0).provider.middlewares.map Middleware.name := by
  refine ⟨?_, rfl⟩
  by_cases h : cfg.SigV4AuthEnabled <;>
    simp [New, newMiddlewares, newProviderFunc, h, TracingMiddleware,
      DataSourceMetricsMiddleware, httpLoggerMiddleware, namedMiddlewareFunc,
      SetUserAgentMiddleware, BasicAuthenticationMiddleware,
      CustomHeadersMiddleware, ResponseLimitMiddleware, SigV4Middleware]

/-- C2 counterexample: an Options value whose `datasource_name` label is
present but empty (not a non-empty target identifier) together with
`har_log_enabled = "true"` does NOT make the middleware return the next
transport unchanged — the code only checks presence of the label, not
non-emptiness, so it activates. -/
theorem httpLogger_empty_name_activates :
    httpLoggerTransform ⟨[("datasource_name", ""), ("har_log_enabled", "true")]⟩
      (.base 0) ≠ .base 0 := by decide

/-- C2 (amended): the logging middleware activates (returns something other
than the next transport) exactly when the `datasource_name` label is present
(with any value, including the empty string) and the `har_log_enabled` label
equals the exact string "true"; in every other case it returns the next
transport unchanged. -/
theorem httpLogger_activation_iff (opts : Options) (next : RoundTripper) :
    httpLoggerTransform opts next ≠ next ↔
      ((lookupLabel opts.Labels "datasource_name").isSome ∧
        lookupLabel opts.Labels "har_log_enabled" = some "true") := by
  unfold httpLoggerTransform
  cases hds : lookupLabel opts.Labels "datasource_name" with
  | none => simp
  | some d =>
    cases hen : lookupLabel opts.Labels "har_log_enabled" with
    | none => simp
    | some v =>
      by_cases hv : v = "true"
      · subst hv
        cases hp : lookupLabel opts.Labels "har_log_path" <;>
          simp [newHTTPLogger, HTTPLogger.withEnabledCheck, HTTPLogger.withPath,
            HTTPLogger.toRoundTripper, logger_ne_next]
      · simp [hv]

/-- C3: the global default timeout policy written by `New` (via
`setDefaultTimeoutOptions`) equals the policy's seconds-denominated fields
converted to durations and its connection-count fields copied; a transport
built after the write observes the policy request timeout (for example 30
seconds when `DataProxyTimeout = 30`), while a transport built under the prior
defaults keeps the prior timeout. -/
theorem New_writes_timeout_policy (cfg : Cfg) (tracer : Tracer)
    (g0 : TimeoutOptions) :
    (New cfg tracer g0).globalDefaults.Timeout = cfg.DataProxyTimeout * second ∧
    (New cfg tracer g0).globalDefaults.DialTimeout =
      cfg.DataProxyDialTimeout * second ∧
    (New cfg tracer g0).globalDefaults.KeepAlive =
      cfg.DataProxyKeepAlive * second ∧
    (New cfg tracer g0).globalDefaults.TLSHandshakeTimeout =
      cfg.DataProxyTLSHandshakeTimeout * second ∧
    (New cfg tracer g0).globalDefaults.ExpectContinueTimeout =
      cfg.DataProxyExpectContinueTimeout * second ∧
    (New cfg tracer g0).globalDefaults.IdleConnTimeout =
      cfg.DataProxyIdleConnTimeout * second ∧
    (New cfg tracer g0).globalDefaults.MaxConnsPerHost =
      cfg.DataProxyMaxConnsPerHost ∧
    (New cfg tracer g0).globalDefaults.MaxIdleConns =
      cfg.DataProxyMaxIdleConns ∧
    (buildTransport (New cfg tracer g0).globalDefaults).requestTimeout =
      cfg.DataProxyTimeout * second ∧
    (buildTransport g0).requestTimeout = g0.Timeout :=
  ⟨rfl, rfl, rfl, rfl, rfl, rfl, rfl, rfl, rfl, rfl⟩

/-- C4: if the `datasource_name` label is absent, or its sanitization returns
an error, the `ConfigureTransport` hook returns the transport unmodified; the
error is swallowed (the hook returns a transport, never an error, so client
construction cannot fail because of it). -/
theorem configureTransportHook_noop_on_missing_or_bad_label (opts : Options)
    (t : Transport)
    (h : lookupLabel opts.Labels "datasource_name" = none ∨
      ∃ d e, lookupLabel opts.Labels "datasource_name" = some d ∧
        SanitizeLabelName d = .error e) :
    configureTransportHook opts t = t := by
  rcases h with h | ⟨d, e, hd, he⟩
  · simp [configureTransportHook, h]
  · simp [configureTransportHook, hd, he]

theorem configureTransportHook_noop_witness :
    configureTransportHook ⟨[("datasource_name", "!!!")]⟩
        ⟨some (.base 7), 1, 2, 3, true, 4, 5, 6, 7, 8, 9⟩ =
      ⟨some (.base 7), 1, 2, 3, true, 4, 5, 6, 7, 8, 9⟩ :=
  configureTransportHook_noop_on_missing_or_bad_label _ _
    (Or.inr ⟨"!!!", "invalid label name", rfl, rfl⟩)

/-- C5: `newConntrackRoundTripper` replaces only the transport's dial function
(wrapping the previous one in the conntrack dialer) and leaves every other
field of the transport (TLS configuration, proxy settings, timeouts, pool
sizes) unchanged. -/
theorem newConntrackRoundTripper_frame (name : String) (t : Transport) :
    (newConntrackRoundTripper name t).DialContext =
      some (conntrackNewDialContextFunc name t.DialContext) ∧
    (newConntrackRoundTripper name t).Proxy = t.Proxy ∧
    (newConntrackRoundTripper name t).TLSClientConfig = t.TLSClientConfig ∧
    (newConntrackRoundTripper name t).TLSHandshakeTimeout =
      t.TLSHandshakeTimeout ∧
    (newConntrackRoundTripper name t).DisableKeepAlives = t.DisableKeepAlives ∧
    (newConntrackRoundTripper name t).MaxIdleConns = t.MaxIdleConns ∧
    (newConntrackRoundTripper name t).MaxIdleConnsPerHost =
      t.MaxIdleConnsPerHost ∧
    (newConntrackRoundTripper name t).MaxConnsPerHost = t.MaxConnsPerHost ∧
    (newConntrackRoundTripper name t).IdleConnTimeout = t.IdleConnTimeout ∧
    (newConntrackRoundTripper name t).ExpectContinueTimeout =
      t.ExpectContinueTimeout ∧
    (newConntrackRoundTripper name t).ResponseHeaderTimeout =
      t.ResponseHeaderTimeout :=
  ⟨rfl, rfl, rfl, rfl, rfl, rfl, rfl, rfl, rfl, rfl, rfl⟩

/-- C6: within `New`, the write to the global default timeout policy happens
exactly once, and it precedes the invocation of `newProviderFunc`; at the
moment `newProviderFunc` is invoked the global defaults already hold the value
derived from the policy. -/
theorem New_sets_defaults_before_provider_call (cfg : Cfg) (tracer : Tracer)
    (g0 : TimeoutOptions) :
    (New cfg tracer g0).events.countP Event.isSetGlobalDefaults = 1 ∧
    ∃ i j : Nat, i < j ∧
      (New cfg tracer g0).events[i]? =
        some (Event.setGlobalDefaults (setDefaultTimeoutOptions cfg)) ∧
      ∃ names, (New cfg tracer g0).events[j]? =
        some (Event.callNewProviderFunc (setDefaultTimeoutOptions cfg) names) :=
  ⟨rfl, 0, 1, Nat.zero_lt_one, rfl,
    (newMiddlewares cfg tracer).map Middleware.name, rfl⟩

/-- C7: whenever the logging middleware activates, the logger it installs has
an enabled-check that constantly returns true, and its output path is the
value of the `har_log_path` label when that label is present and the default
location (none) when it is absent. -/
theorem httpLogger_active_logger_config (opts : Options) (next : RoundTripper)
    (h : httpLoggerTransform opts next ≠ next) :
    ∃ d, lookupLabel opts.Labels "datasource_name" = some d ∧
      httpLoggerTransform opts next =
        .logger d true (lookupLabel opts.Labels "har_log_path") next := by
  revert h
  unfold httpLoggerTransform
  cases hds : lookupLabel opts.Labels "datasource_name" with
  | none => simp
  | some d =>
    cases hen : lookupLabel opts.Labels "har_log_enabled" with
    | none => simp
    | some v =>
      by_cases hv : v = "true"
      · subst hv
        intro _
        refine ⟨d, rfl, ?_⟩
        cases hp : lookupLabel opts.Labels "har_log_path" <;>
          simp [newHTTPLogger, HTTPLogger.withEnabledCheck, HTTPLogger.withPath,
            HTTPLogger.toRoundTripper]
      · simp [hv]

theorem httpLogger_active_logger_config_witness :
    ∃ d, lookupLabel [("datasource_name", "prometheus"),
        ("har_log_enabled", "true")] "datasource_name" = some d ∧
      httpLoggerTransform
          ⟨[("datasource_name", "prometheus"), ("har_log_enabled", "true")]⟩
          (.base 0) =
        .logger d true
          (lookupLabel [("datasource_name", "prometheus"),
            ("har_log_enabled", "true")] "har_log_path")
          (.base 0) :=
  httpLogger_active_logger_config
    ⟨[("datasource_name", "prometheus"), ("har_log_enabled", "true")]⟩
    (.base 0) (by decide)

/-- C8: applying the connection tagger to a transport whose dial function is
nil is safe — the resulting transport has a dial function whose dial is
performed by a default dialer and which registers the connection under the
given name. -/
theorem newConntrackRoundTripper_nil_dial_safe (name : String) (t : Transport)
    (h : t.DialContext = none) :
    ∃ d, (newConntrackRoundTripper name t).DialContext = some d ∧
      dialBehavior d = ⟨.defaultDialer, [name]⟩ := by
  refine ⟨conntrackNewDialContextFunc name t.DialContext, rfl, ?_⟩
  simp [conntrackNewDialContextFunc, h, dialBehavior]

theorem newConntrackRoundTripper_nil_dial_safe_witness :
    ∃ d, (newConntrackRoundTripper "db"
        ⟨none, 1, 2, 3, false, 4, 5, 6, 7, 8, 9⟩).DialContext = some d ∧
      dialBehavior d = ⟨.defaultDialer, ["db"]⟩ :=
  newConntrackRoundTripper_nil_dial_safe "db"
    ⟨none, 1, 2, 3, false, 4, 5, 6, 7, 8, 9⟩ rfl

/-- C9: label sanitization is idempotent — whenever sanitization succeeds with
result r, sanitizing r succeeds and returns r unchanged. -/
theorem SanitizeLabelName_idempotent (s r : String)
    (h : SanitizeLabelName s = .ok r) :
    SanitizeLabelName r = .ok r := by
  unfold SanitizeLabelName at h ⊢
  by_cases he : (sanitizeChars s.toList).isEmpty = true
  · rw [if_pos he] at h
    exact Except.noConfusion h
  · rw [if_neg he] at h
    obtain rfl := Except.ok.inj h
    have hlist : (String.mk (sanitizeChars s.toList)).toList =
        sanitizeChars s.toList := rfl
    rw [hlist, sanitizeChars_idem, if_neg he]

theorem SanitizeLabelName_idempotent_witness :
    SanitizeLabelName "My DB!" = .ok "My_DB" ∧
      SanitizeLabelName "My_DB" = .ok "My_DB" :=
  ⟨rfl, SanitizeLabelName_idempotent "My DB!" "My_DB" rfl⟩

/-- C10: after every run of the transport-configuration resolver, the global
default timeout policy satisfies MaxIdleConnsPerHost = MaxIdleConns, both
written from the single policy field DataProxyMaxIdleConns. -/
theorem setDefaultTimeoutOptions_per_host_equals_total (cfg : Cfg) :
    (setDefaultTimeoutOptions cfg).MaxIdleConnsPerHost =
      (setDefaultTimeoutOptions cfg).MaxIdleConns ∧
    (setDefaultTimeoutOptions cfg).MaxIdleConnsPerHost =
      cfg.DataProxyMaxIdleConns ∧
    (setDefaultTimeoutOptions cfg).MaxIdleConns = cfg.DataProxyMaxIdleConns :=
  ⟨rfl, rfl, rfl⟩

end HttpClientProvider
